import Mathlib

/-!
Shallow embedding of `src/scripts/cloudflare-access/validate-jwt.py`
(the Token Verifier core: key-set cache, key fetcher, token validator).

Modelling conventions:
* Module-level configuration (`TEAM_DOMAIN`, `AUD_TAG`, read from the
  environment at import time) is a fixed `Config` record; `Option.none` or
  an empty string both count as unset, mirroring Python truthiness
  (`if not TEAM_DOMAIN`).
* The mutable module globals `_config_validated`, `_keys_cache`,
  `_keys_cache_time` form the state `GState`, threaded explicitly.  The
  extra `fetches` field is instrumentation: it counts the number of
  `requests.get` invocations performed, so that "no network call" claims
  are expressible.  `_keys_cache = None` is `Option.none`; Python
  truthiness makes both `None` and the empty list `[]` falsy in the cache
  check, which the embedding mirrors.
* Times (`time.time()`, JWT `iat`/`exp`) are integers (`Int`).
* Cryptography is symbolic: a signature records the algorithm, the signing
  key material and the signed content; `RSAAlgorithm.verify` holds exactly
  when all three match what is being checked.  `RSAAlgorithm.from_jwk`
  becomes the `material` field of a key record.
* The external calls are embedded from the libraries' behaviour:
  `requests.get`/`raise_for_status` (raises `HTTPError` exactly for
  status codes in [400, 600)), `response.json()['keys']`
  (`JSONDecodeError` on a non-JSON body, `KeyError` on a JSON body with no
  "keys" field), and PyJWT's `get_unverified_header` / `decode` (algorithm
  allow-list check, then signature verification, then claim checks in
  PyJWT order iat, exp, iss, aud, with leeway 0, since the call site
  passes none).
* Each distinct Python raise site gets its own constructor of `Err`,
  named after the spec's error taxonomy: the `ValueError` of
  `_validate_config` is `configError`, the generic
  `Exception('No matching key found')` is `unknownKey`, PyJWT's
  `InvalidSignatureError` is `signatureError`, its claim errors are
  `claimsError` tagged with the failing claim, and so on.
-/

namespace CfAccess

/-- A public-key record from the provider's `keys` list: `kid` plus the
(symbolic) key material that `RSAAlgorithm.from_jwk` would reconstruct. -/
structure SigningKey where
  kid : String
  material : Nat
deriving DecidableEq, Repr

/-- Decoded JWT header (the fields the script reads: `alg` and `kid`). -/
structure Header where
  alg : String
  kid : String
deriving DecidableEq, Repr

/-- Decoded JWT payload, projected to the claims the subsystem inspects:
subject, optional email, optional issued-at and expiry, audience, issuer. -/
structure Payload where
  sub : String
  email : Option String
  iat : Option Int
  exp : Option Int
  aud : String
  iss : String
deriving DecidableEq, Repr

/-- Symbolic RS256-class signature: records which algorithm produced it,
the material of the producing key, and the signed content. -/
structure Sig where
  alg : String
  keyMaterial : Nat
  header : Header
  payload : Payload
deriving DecidableEq, Repr

/-- A token string: either not structurally a three-part signed token
(header undecodable included), or a well-formed compact JWT. -/
inductive Token where
  | malformed (raw : String)
  | wellFormed (h : Header) (p : Payload) (s : Sig)
deriving DecidableEq, Repr

/-- Which claim check failed inside `jwt.decode` (PyJWT raises a distinct
exception class per claim). -/
inductive ClaimKind where
  | iat
  | exp
  | iss
  | aud
deriving DecidableEq, Repr

/-- One constructor per distinct raise site reachable from the core. -/
inductive Err where
  | configError (missing : List String)
  | keyFetchTimeout
  | keyFetchHttp (status : Nat) (body : String)
  | keyFetchParse
  | malformedToken
  | unknownKey
  | badAlgorithm
  | signatureError
  | claimsError (k : ClaimKind)
deriving DecidableEq, Repr

/-- Module configuration: `TEAM_DOMAIN` and `AUD_TAG`, each `none` when the
environment variable is absent. -/
structure Config where
  teamDomain : Option String
  audTag : Option String
deriving DecidableEq, Repr

/-- Python truthiness of an optional string: `not x` is true for `None`
and for the empty string. -/
def strFalsy (o : Option String) : Bool :=
  o.getD "" = ""

/-- The `missing` list built by `_validate_config`. -/
def missingVars (cfg : Config) : List String :=
  (if strFalsy cfg.teamDomain then ["CF_TEAM_DOMAIN"] else []) ++
    (if strFalsy cfg.audTag then ["CF_AUD_TAG"] else [])

/-- Value `audience=AUD_TAG` at the `jwt.decode` call site (only reached after
`_validate_config`, so the default is never observed there). -/
def audOf (cfg : Config) : String :=
  cfg.audTag.getD ""

/-- Value `issuer` at the `jwt.decode` call site: `https://` followed by the team domain. -/
def issOf (cfg : Config) : String :=
  "https://" ++ cfg.teamDomain.getD ""

/-- The JSON body of a certs response, as seen through
`response.json()['keys']`. -/
inductive JsonBody where
  | withKeys (keys : List SigningKey)
  | withoutKeys
deriving DecidableEq, Repr

/-- An HTTP response: status code, raw text, and its JSON decoding
(`none` when the body is not valid JSON). -/
structure HttpResponse where
  status : Nat
  text : String
  json : Option JsonBody
deriving DecidableEq, Repr

/-- What the network returns if `requests.get` is actually invoked:
either an exception (timeout / connection failure) or a response. -/
inductive HttpResult where
  | timeout
  | ok (resp : HttpResponse)
deriving DecidableEq, Repr

/-- The module's mutable globals plus fetch instrumentation:
`_config_validated` (initially `false`), `_keys_cache` (initially `None`),
`_keys_cache_time` (initially `0`), and the count of `requests.get`
invocations performed so far. -/
structure GState where
  configValidated : Bool
  keysCache : Option (List SigningKey)
  keysCacheTime : Int
  fetches : Nat
deriving DecidableEq, Repr

/-- The state at module import. -/
def initState : GState :=
  { configValidated := false, keysCache := none, keysCacheTime := 0, fetches := 0 }

/-- Constant `CACHE_DURATION = 86400` seconds. -/
def CACHE_DURATION : Int := 86400

/-- Model of `_validate_config()`: returns at once if the flag is set; otherwise
collects the missing variable names, raises `ValueError` naming them if
any, else sets the flag.  The pair carries the post-state (the raise
leaves the globals untouched). -/
def validateConfig (cfg : Config) (st : GState) : Except Err Unit × GState :=
  if st.configValidated then (.ok (), st)
  else if missingVars cfg = [] then (.ok (), { st with configValidated := true })
  else (.error (.configError (missingVars cfg)), st)

/-- The cache-hit test `_keys_cache and (current_time - _keys_cache_time)
< CACHE_DURATION`: truthiness of the cached list, then the age bound. -/
def cacheFresh (st : GState) (now : Int) : Bool :=
  match st.keysCache with
  | none => false
  | some ks => !ks.isEmpty && decide (now - st.keysCacheTime < CACHE_DURATION)

/-- The part of `get_public_keys` past the cache check: one
`requests.get` (counted in `fetches`), `raise_for_status` (HTTPError
exactly for status codes in [400, 600)), `response.json()['keys']`
(JSONDecodeError on a non-JSON body, KeyError when the JSON has no
`keys` field), then the two cache assignments and the return. -/
def fetchKeys (env : HttpResult) (now : Int) (st1 : GState) :
    Except Err (List SigningKey) × GState :=
  let st2 := { st1 with fetches := st1.fetches + 1 }
  match env with
  | .timeout => (.error .keyFetchTimeout, st2)
  | .ok r =>
    if 400 ≤ r.status ∧ r.status < 600 then
      (.error (.keyFetchHttp r.status r.text), st2)
    else
      match r.json with
      | none => (.error .keyFetchParse, st2)
      | some .withoutKeys => (.error .keyFetchParse, st2)
      | some (.withKeys ks) =>
        (.ok ks, { st2 with keysCache := some ks, keysCacheTime := now })

/-- Model of `get_public_keys()`: config check, cache-hit check (Python
truthiness of `_keys_cache`, then the age bound), else the network
round-trip and cache refill of `fetchKeys`. -/
def getPublicKeys (cfg : Config) (env : HttpResult) (now : Int) (st : GState) :
    Except Err (List SigningKey) × GState :=
  match validateConfig cfg st with
  | (.error e, st1) => (.error e, st1)
  | (.ok _, st1) =>
    match st1.keysCache with
    | some ks =>
      if !ks.isEmpty && decide (now - st1.keysCacheTime < CACHE_DURATION) then
        (.ok ks, st1)
      else
        fetchKeys env now st1
    | none => fetchKeys env now st1

/-- Model of `jwt.get_unverified_header(token)`: decodes the header segment without
signature verification; `DecodeError` when the token is not structurally a
three-part signed token or the header cannot be decoded. -/
def getUnverifiedHeader : Token → Except Err Header
  | .malformed _ => .error .malformedToken
  | .wellFormed h _ _ => .ok h

/-- Model of `RSAAlgorithm.verify` in the symbolic world: the signature is valid
for algorithm `alg`, key material `material` and content `(h, p)` exactly
when it was produced that way. -/
def verifySig (alg : String) (material : Nat) (h : Header) (p : Payload) (s : Sig) : Bool :=
  s.alg = alg ∧ s.keyMaterial = material ∧ s.header = h ∧ s.payload = p

/-- Model of `jwt.decode(token, key, algorithms=['RS256'], audience, issuer)`:
structural decode, algorithm allow-list check (`InvalidAlgorithmError`),
signature verification with the declared algorithm
(`InvalidSignatureError`), then claim validation with leeway 0 in PyJWT
order: iat (`ImmatureSignatureError` when in the future), exp
(`ExpiredSignatureError` when not in the future), iss
(`InvalidIssuerError`), aud (`InvalidAudienceError`).  Success returns the
decoded payload. -/
def jwtDecode (tok : Token) (material : Nat) (aud iss : String) (now : Int) :
    Except Err Payload :=
  match tok with
  | .malformed _ => .error .malformedToken
  | .wellFormed h p s =>
    if h.alg ∈ (["RS256"] : List String) then
      if verifySig h.alg material h p s then
        if (match p.iat with | some t => decide (t > now) | none => false) then
          .error (.claimsError .iat)
        else if (match p.exp with | some t => decide (t ≤ now) | none => false) then
          .error (.claimsError .exp)
        else if p.iss ≠ iss then
          .error (.claimsError .iss)
        else if p.aud ≠ aud then
          .error (.claimsError .aud)
        else
          .ok p
      else
        .error .signatureError
    else
      .error .badAlgorithm

/-- The `for key in keys` loop of `validate_access_jwt`: first key whose
`kid` equals the header `kid` is handed to `jwt.decode`; falling off the
end raises `Exception('No matching key found')`. -/
def keyLoop (tok : Token) (hdr : Header) (aud iss : String) (now : Int) :
    List SigningKey → Except Err Payload
  | [] => .error .unknownKey
  | k :: keys =>
    if k.kid = hdr.kid then jwtDecode tok k.material aud iss now
    else keyLoop tok hdr aud iss now keys

/-- Model of `validate_access_jwt(token)`: config check, `get_public_keys()`,
`jwt.get_unverified_header(token)`, then the key-matching loop.  Returns
the decoded payload (the `TokenClaims`) or the first raised error,
together with the post-state. -/
def validateAccessJwt (cfg : Config) (env : HttpResult) (now : Int) (tok : Token)
    (st : GState) : Except Err Payload × GState :=
  match validateConfig cfg st with
  | (.error e, st1) => (.error e, st1)
  | (.ok _, st1) =>
    match getPublicKeys cfg env now st1 with
    | (.error e, st2) => (.error e, st2)
    | (.ok keys, st2) =>
      match getUnverifiedHeader tok with
      | .error e => (.error e, st2)
      | .ok hdr => (keyLoop tok hdr (audOf cfg) (issOf cfg) now keys, st2)

/-- First key of the set whose identifier matches, as a direct lookup. -/
def matchedKey (keys : List SigningKey) (hdr : Header) : Option SigningKey :=
  keys.find? (fun k => k.kid = hdr.kid)

/-- The `setValidated` view of a state after a successful config check. -/
def setValidated (st : GState) : GState :=
  { st with configValidated := true }

/- Concrete fixtures used by witnesses and counterexamples. -/

/-- A fully populated configuration. -/
def cfg1 : Config :=
  { teamDomain := some "team.example.com", audTag := some "app1" }

/-- A configuration with both variables absent. -/
def cfgNone : Config :=
  { teamDomain := none, audTag := none }

/-- A signing key with identifier `abc`. -/
def k1 : SigningKey := { kid := "abc", material := 7 }

/-- A second signing key, identifier `xyz`. -/
def k2 : SigningKey := { kid := "xyz", material := 9 }

/-- An RS256 header naming key `abc`. -/
def hdr1 : Header := { alg := "RS256", kid := "abc" }

/-- A payload whose claims all pass at validation time 100 under `cfg1`. -/
def pay1 : Payload :=
  { sub := "user-1", email := some "u@example.com", iat := some 50,
    exp := some 4000, aud := "app1", iss := "https://team.example.com" }

/-- The signature `k1` produces over `(hdr1, pay1)` with RS256. -/
def sig1 : Sig := { alg := "RS256", keyMaterial := 7, header := hdr1, payload := pay1 }

/-- A token that validates at time 100 under `cfg1` with `k1` cached. -/
def tok1 : Token := .wellFormed hdr1 pay1 sig1

/-- A cache state holding `[k1]`, fetched at time 100. -/
def stHot : GState :=
  { configValidated := false, keysCache := some [k1], keysCacheTime := 100, fetches := 0 }

/-- Same as `pay1` except the issued-at claim lies in the future of 100. -/
def payIatFuture : Payload := { pay1 with iat := some 999 }

/-- The signature `k1` produces over `(hdr1, payIatFuture)`. -/
def sigIatFuture : Sig :=
  { alg := "RS256", keyMaterial := 7, header := hdr1, payload := payIatFuture }

/-- A response that carries a key list. -/
def respKeys : HttpResponse := { status := 200, text := "", json := some (.withKeys [k1]) }

/-- A response that carries an empty key list. -/
def respEmptyKeys : HttpResponse := { status := 200, text := "", json := some (.withKeys []) }

/-- A redirection-class response (not a success status, not an error
status) whose body nevertheless carries a key list. -/
def resp304 : HttpResponse := { status := 304, text := "", json := some (.withKeys [k1]) }

/-- The state after a first fetch that stored an empty key list at time 100. -/
def stAfterEmpty : GState := (getPublicKeys cfg1 (.ok respEmptyKeys) 100 initState).snd

deriving instance DecidableEq for Except

/-- Predicate used to state that a claims error names a claim that indeed
fails: which check the tagged claim kind corresponds to. -/
def claimFails (kind : ClaimKind) (p : Payload) (aud iss : String) (now : Int) : Prop :=
  match kind with
  | .iat => ∃ t, p.iat = some t ∧ now < t
  | .exp => ∃ t, p.exp = some t ∧ t ≤ now
  | .iss => p.iss ≠ iss
  | .aud => p.aud ≠ aud

/-- A signature produced by a key whose material differs from `k1`, over
the same content as `sig1`: signature verification against `k1` fails. -/
def sigWrong : Sig := { alg := "RS256", keyMaterial := 8, header := hdr1, payload := pay1 }

/-- Same as `pay1` but with an audience different from `cfg1`'s tag. -/
def payBadAud : Payload := { pay1 with aud := "other-app" }

/-- The signature `k1` produces over `(hdr1, payBadAud)`. -/
def sigBadAud : Sig :=
  { alg := "RS256", keyMaterial := 7, header := hdr1, payload := payBadAud }

/-- A header declaring RS512 while naming key `abc`. -/
def hdr512 : Header := { alg := "RS512", kid := "abc" }

/-- The RS512 signature `k1` produces over `(hdr512, pay1)`: it verifies
under the declared algorithm and the matched key. -/
def sig512 : Sig := { alg := "RS512", keyMaterial := 7, header := hdr512, payload := pay1 }

/-- A token signed with RS512 whose signature is valid under the declared
algorithm and the key the header names. -/
def tok512 : Token := .wellFormed hdr512 pay1 sig512

/-- A header whose key identifier matches no cached key. -/
def hdrNoKid : Header := { alg := "RS256", kid := "zzz" }

/-- A signature over `(hdrNoKid, pay1)` by `k1`. -/
def sigNoKid : Sig :=
  { alg := "RS256", keyMaterial := 7, header := hdrNoKid, payload := pay1 }

/- Helper lemmas. -/

/-- With complete configuration, `_validate_config` succeeds and at most
sets the flag. -/
theorem validateConfig_ok (cfg : Config) (st : GState) (hm : missingVars cfg = []) :
    validateConfig cfg st = (.ok (), setValidated st) := by
  unfold validateConfig setValidated
  by_cases h : st.configValidated
  · cases st
    simp_all
  · simp [h, hm]

/-- With complete configuration, `validate_access_jwt` is the key-set
request followed by header parsing followed by the key loop. -/
theorem validate_steps (cfg : Config) (env : HttpResult) (now : Int) (tok : Token)
    (st : GState) (hm : missingVars cfg = []) :
    validateAccessJwt cfg env now tok st =
      match getPublicKeys cfg env now (setValidated st) with
      | (.error e, st2) => (.error e, st2)
      | (.ok keys, st2) =>
        match getUnverifiedHeader tok with
        | .error e => (.error e, st2)
        | .ok hdr => (keyLoop tok hdr (audOf cfg) (issOf cfg) now keys, st2) := by
  unfold validateAccessJwt
  rw [validateConfig_ok cfg st hm]

/-- A cache hit: held non-empty keys within the window are returned with
no state change beyond the config flag. -/
theorem getPublicKeys_hit (cfg : Config) (env : HttpResult) (now : Int) (st : GState)
    (ks : List SigningKey) (hm : missingVars cfg = []) (hc : st.keysCache = some ks)
    (hne : ks ≠ []) (hfr : now - st.keysCacheTime < CACHE_DURATION) :
    getPublicKeys cfg env now st = (.ok ks, setValidated st) := by
  unfold getPublicKeys
  rw [validateConfig_ok cfg st hm]
  have hc' : (setValidated st).keysCache = some ks := hc
  have ht' : (setValidated st).keysCacheTime = st.keysCacheTime := rfl
  simp only [hc', ht']
  simp [hne, hfr]

/-- A cache miss: when the held cache is not fresh, `get_public_keys`
performs the network round-trip of `fetchKeys`. -/
theorem getPublicKeys_stale (cfg : Config) (env : HttpResult) (now : Int) (st : GState)
    (hm : missingVars cfg = []) (hstale : cacheFresh st now = false) :
    getPublicKeys cfg env now st = fetchKeys env now (setValidated st) := by
  unfold getPublicKeys
  rw [validateConfig_ok cfg st hm]
  unfold cacheFresh at hstale
  have hc' : (setValidated st).keysCache = st.keysCache := rfl
  have ht' : (setValidated st).keysCacheTime = st.keysCacheTime := rfl
  simp only [hc', ht']
  cases hks : st.keysCache with
  | none => simp
  | some ks =>
    rw [hks] at hstale
    simp_all

/-- The key loop returns the result of `jwt.decode` under the first key
whose identifier matches, and the no-match error otherwise. -/
theorem keyLoop_eq_find (tok : Token) (hdr : Header) (aud iss : String) (now : Int)
    (keys : List SigningKey) :
    keyLoop tok hdr aud iss now keys =
      match matchedKey keys hdr with
      | none => .error .unknownKey
      | some k => jwtDecode tok k.material aud iss now := by
  induction keys with
  | nil => rfl
  | cons k ks ih =>
    by_cases h : k.kid = hdr.kid
    · simp [keyLoop, matchedKey, h]
    · simp only [keyLoop, h, if_false, ih, matchedKey]
      rw [List.find?_cons_of_neg]
      simp [h]

/-- With pairwise distinct key identifiers, a member whose identifier
matches the header is the first match. -/
theorem matchedKey_of_mem (keys : List SigningKey) (k : SigningKey) (hdr : Header)
    (hnd : (keys.map SigningKey.kid).Nodup) (hmem : k ∈ keys) (hkid : k.kid = hdr.kid) :
    matchedKey keys hdr = some k := by
  induction keys with
  | nil => cases hmem
  | cons a as ih =>
    simp only [List.map_cons, List.nodup_cons] at hnd
    rcases List.mem_cons.mp hmem with rfl | htail
    · simp [matchedKey, hkid]
    · by_cases h : a.kid = hdr.kid
      · exfalso
        apply hnd.1
        rw [h, ← hkid]
        exact List.mem_map_of_mem _ htail
      · unfold matchedKey
        rw [List.find?_cons_of_neg]
        · exact ih hnd.2 htail
        · simp [h]

/-- Inversion of a successful `jwt.decode`: the declared algorithm is in
the pinned list and the signature verified, and the result is the
payload. -/
theorem jwtDecode_ok_inv (h : Header) (p : Payload) (s : Sig) (material : Nat)
    (aud iss : String) (now : Int) (q : Payload)
    (hd : jwtDecode (.wellFormed h p s) material aud iss now = .ok q) :
    h.alg = "RS256" ∧ verifySig h.alg material h p s = true ∧ q = p := by
  simp only [jwtDecode] at hd
  by_cases hmem : h.alg ∈ (["RS256"] : List String)
  · rw [if_pos hmem] at hd
    by_cases hsig : verifySig h.alg material h p s = true
    · rw [if_pos hsig] at hd
      refine ⟨by simpa using hmem, hsig, ?_⟩
      split at hd
      · cases hd
      · split at hd
        · cases hd
        · split at hd
          · cases hd
          · split at hd
            · cases hd
            · cases hd
              rfl
    · rw [if_neg hsig] at hd
      cases hd
  · rw [if_neg hmem] at hd
    cases hd

/-- Inversion of a successful key loop: some key matched first and
`jwt.decode` under it succeeded. -/
theorem keyLoop_ok_inv (tok : Token) (hdr : Header) (aud iss : String) (now : Int)
    (keys : List SigningKey) (q : Payload)
    (hkl : keyLoop tok hdr aud iss now keys = .ok q) :
    ∃ k, matchedKey keys hdr = some k ∧ jwtDecode tok k.material aud iss now = .ok q := by
  rw [keyLoop_eq_find] at hkl
  split at hkl
  · cases hkl
  case _ k hk => exact ⟨k, hk, hkl⟩

/-- Inversion of a successful validation: the token is well-formed, the
key set was obtained, a key matched, the algorithm is the pinned RS256,
the signature verifies against the matched key's material, and the
returned claims are exactly the token's payload. -/
theorem validate_ok_inv (cfg : Config) (env : HttpResult) (now : Int) (tok : Token)
    (st : GState) (q : Payload) (st2 : GState)
    (hok : validateAccessJwt cfg env now tok st = (.ok q, st2)) :
    ∃ h p s keys k,
      tok = .wellFormed h p s ∧
      getPublicKeys cfg env now ((validateConfig cfg st).snd) = (.ok keys, st2) ∧
      matchedKey keys h = some k ∧
      h.alg = "RS256" ∧ s.alg = "RS256" ∧
      verifySig h.alg k.material h p s = true ∧ q = p := by
  unfold validateAccessJwt at hok
  split at hok
  · cases hok
  case _ u st1 heq1 =>
    split at hok
    · cases hok
    case _ keys st2x heq2 =>
      split at hok
      · cases hok
      case _ hdr heq3 =>
        obtain ⟨hkl, hst⟩ := Prod.mk.inj hok
        subst hst
        cases tok with
        | malformed raw => simp [getUnverifiedHeader] at heq3
        | wellFormed hh pp ss =>
          have hdr_eq : hh = hdr := by simpa [getUnverifiedHeader] using heq3
          subst hdr_eq
          obtain ⟨k, hk, hd⟩ := keyLoop_ok_inv _ _ _ _ _ _ _ hkl
          obtain ⟨halg, hsig, hq⟩ := jwtDecode_ok_inv _ _ _ _ _ _ _ _ hd
          have hsalg : ss.alg = "RS256" := by
            simp only [verifySig, decide_eq_true_eq] at hsig
            rw [hsig.1, halg]
          exact ⟨hh, pp, ss, keys, k, rfl, by rw [heq1]; exact heq2, hk, halg, hsalg, hsig, hq⟩

/-- When any of the four claim checks fails but the algorithm and
signature checks pass, `jwt.decode` reports a claims error naming a claim
that really fails. -/
theorem jwtDecode_claims (h : Header) (p : Payload) (s : Sig) (material : Nat)
    (aud iss : String) (now : Int)
    (halg : h.alg = "RS256") (hsig : verifySig h.alg material h p s = true)
    (hbad : p.aud ≠ aud ∨ p.iss ≠ iss ∨ (∃ t, p.exp = some t ∧ t ≤ now) ∨
      (∃ t, p.iat = some t ∧ now < t)) :
    ∃ kind, jwtDecode (.wellFormed h p s) material aud iss now
        = .error (.claimsError kind) ∧ claimFails kind p aud iss now := by
  simp only [jwtDecode]
  rw [if_pos (by simp [halg] : Header.alg h ∈ (["RS256"] : List String)), if_pos hsig]
  by_cases hiat : ∃ t, p.iat = some t ∧ now < t
  · refine ⟨.iat, ?_, hiat⟩
    rcases hiat with ⟨t, ht, hlt⟩
    rw [if_pos]
    rw [ht]
    simpa using hlt
  · rw [if_neg (by
      cases hpi : p.iat with
      | none => simp
      | some t =>
        simp only
        intro hc
        exact hiat ⟨t, hpi, by simpa using hc⟩)]
    by_cases hexp : ∃ t, p.exp = some t ∧ t ≤ now
    · refine ⟨.exp, ?_, hexp⟩
      rcases hexp with ⟨t, ht, hle⟩
      rw [if_pos]
      rw [ht]
      simpa using hle
    · rw [if_neg (by
        cases hpe : p.exp with
        | none => simp
        | some t =>
          simp only
          intro hc
          exact hexp ⟨t, hpe, by simpa using hc⟩)]
      by_cases hiss : p.iss ≠ iss
      · exact ⟨.iss, by rw [if_pos hiss], hiss⟩
      · rw [if_neg hiss]
        by_cases haud : p.aud ≠ aud
        · exact ⟨.aud, by rw [if_pos haud], haud⟩
        · exfalso
          rcases hbad with hb | hb | hb | hb
          · exact haud hb
          · exact hiss hb
          · exact hexp hb
          · exact hiat hb

/-- The config-validated flag is only ever set when the configuration is
complete: a reachable state with missing configuration has the flag
clear. -/
theorem flag_only_set_when_config_ok (cfg : Config) (env : HttpResult) (now : Int)
    (tok : Token) (st : GState)
    (hflag : (validateAccessJwt cfg env now tok st).snd.configValidated = true) :
    st.configValidated = true ∨ missingVars cfg = [] := by
  by_cases hm : missingVars cfg = []
  · exact Or.inr hm
  · left
    by_contra hf
    have hst : st.configValidated = false := by simpa using hf
    unfold validateAccessJwt validateConfig at hflag
    rw [hst] at hflag
    simp [hm] at hflag
    rw [hst] at hflag
    exact Bool.false_ne_true hflag

/-- With the flag clear and configuration incomplete, a `validate` call
raises the config error naming the missing fields and leaves the whole
state (flag, cache, fetch count) untouched. -/
theorem validate_missing_config (cfg : Config) (env : HttpResult) (now : Int)
    (tok : Token) (st : GState)
    (hflag : st.configValidated = false) (hm : missingVars cfg ≠ []) :
    validateAccessJwt cfg env now tok st = (.error (.configError (missingVars cfg)), st) := by
  unfold validateAccessJwt validateConfig
  rw [hflag]
  simp [hm]

/-- A failing network round-trip leaves the cache fields untouched and
counts one fetch. -/
theorem fetchKeys_error (env : HttpResult) (now : Int) (st1 : GState) (e : Err)
    (st2 : GState) (hf : fetchKeys env now st1 = (.error e, st2)) :
    st2.keysCache = st1.keysCache ∧ st2.keysCacheTime = st1.keysCacheTime ∧
    st2.fetches = st1.fetches + 1 := by
  unfold fetchKeys at hf
  cases env with
  | timeout =>
    cases hf
    exact ⟨rfl, rfl, rfl⟩
  | ok r =>
    simp only at hf
    split at hf
    · cases hf
      exact ⟨rfl, rfl, rfl⟩
    · split at hf
      · cases hf
        exact ⟨rfl, rfl, rfl⟩
      · cases hf
        exact ⟨rfl, rfl, rfl⟩
      · cases hf

/-- A successful network round-trip stores the fetched keys and the
current timestamp together, and counts one fetch. -/
theorem fetchKeys_ok (env : HttpResult) (now : Int) (st1 : GState)
    (ks : List SigningKey) (st2 : GState) (hf : fetchKeys env now st1 = (.ok ks, st2)) :
    st2 = { st1 with keysCache := some ks, keysCacheTime := now,
                     fetches := st1.fetches + 1 } := by
  unfold fetchKeys at hf
  cases env with
  | timeout => cases hf
  | ok r =>
    simp only at hf
    split at hf
    · cases hf
    · split at hf
      · cases hf
      · cases hf
      · cases hf
        rfl

/-- The config check never touches the cache fields or the fetch count. -/
theorem validateConfig_preserves (cfg : Config) (st : GState) :
    ((validateConfig cfg st).snd).keysCache = st.keysCache ∧
    ((validateConfig cfg st).snd).keysCacheTime = st.keysCacheTime ∧
    ((validateConfig cfg st).snd).fetches = st.fetches := by
  unfold validateConfig
  split
  · exact ⟨rfl, rfl, rfl⟩
  · split
    · exact ⟨rfl, rfl, rfl⟩
    · exact ⟨rfl, rfl, rfl⟩

/-- C4: whenever the team domain or the audience tag is unset, every
`validate` call fails with a config error naming the missing fields, and
the state — in particular the fetch count — is unchanged, so no network
call is made and the check fires again identically on the next call. -/
theorem C4_missing_config_fails (cfg : Config) (env : HttpResult) (now : Int)
    (tok : Token) (st : GState)
    (hflag : st.configValidated = false) (hm : missingVars cfg ≠ []) :
    validateAccessJwt cfg env now tok st = (.error (.configError (missingVars cfg)), st) ∧
    (strFalsy cfg.teamDomain = true → "CF_TEAM_DOMAIN" ∈ missingVars cfg) ∧
    (strFalsy cfg.audTag = true → "CF_AUD_TAG" ∈ missingVars cfg) := by
  refine ⟨validate_missing_config cfg env now tok st hflag hm, ?_, ?_⟩
  · intro h
    simp [missingVars, h]
  · intro h
    simp [missingVars, h]

/-- Witness for C4 at a concrete unset configuration. -/
theorem C4_missing_config_fails_witness :
    validateAccessJwt cfgNone .timeout 100 tok1 initState
      = (.error (.configError ["CF_TEAM_DOMAIN", "CF_AUD_TAG"]), initState) ∧
    "CF_TEAM_DOMAIN" ∈ missingVars cfgNone := by
  have h := C4_missing_config_fails cfgNone .timeout 100 tok1 initState rfl (by decide)
  refine ⟨?_, h.2.1 (by decide)⟩
  rw [h.1]
  decide

/-- C8 counterexample: a structurally malformed token with a cold cache
still triggers the key-set request — here the fetch times out and
`validate` fails with the fetch error, not `MalformedTokenError`, and the
fetch count rose to 1.  The key-set request therefore precedes header
parsing, contrary to the claimed order. -/
theorem C8_counterexample :
    validateAccessJwt cfg1 .timeout 100 (.malformed "not-a-jwt") initState
      = (.error .keyFetchTimeout,
         { configValidated := true, keysCache := none, keysCacheTime := 0, fetches := 1 }) := by
  decide

/-- C8 amended: `validate` runs the config check first, then the key-set
request, and only then header parsing; a malformed token yields
`MalformedTokenError` exactly when the key-set request succeeds, and a
key-fetch failure wins over malformedness. -/
theorem C8_amended_step_order (cfg : Config) (env : HttpResult) (now : Int)
    (st : GState) (raw : String) :
    (st.configValidated = false → missingVars cfg ≠ [] →
      validateAccessJwt cfg env now (.malformed raw) st
        = (.error (.configError (missingVars cfg)), st)) ∧
    (missingVars cfg = [] → ∀ (e : Err) (st2 : GState),
      getPublicKeys cfg env now (setValidated st) = (.error e, st2) →
      validateAccessJwt cfg env now (.malformed raw) st = (.error e, st2)) ∧
    (missingVars cfg = [] → ∀ (keys : List SigningKey) (st2 : GState),
      getPublicKeys cfg env now (setValidated st) = (.ok keys, st2) →
      validateAccessJwt cfg env now (.malformed raw) st
        = (.error .malformedToken, st2)) := by
  refine ⟨fun hflag hm => validate_missing_config cfg env now _ st hflag hm, ?_, ?_⟩
  · intro hm e st2 hget
    rw [validate_steps cfg env now _ st hm, hget]
  · intro hm keys st2 hget
    rw [validate_steps cfg env now _ st hm, hget]
    rfl

/-- Witness for the amended C8: with a fresh cache a malformed token is
rejected as malformed (after the key-set request, which is a hit), and
with missing configuration the config error comes first. -/
theorem C8_amended_step_order_witness :
    validateAccessJwt cfg1 (.ok respKeys) 100 (.malformed "x") stHot
      = (.error .malformedToken, setValidated stHot) ∧
    validateAccessJwt cfgNone .timeout 100 (.malformed "x") initState
      = (.error (.configError (missingVars cfgNone)), initState) := by
  refine ⟨(C8_amended_step_order cfg1 (.ok respKeys) 100 stHot "x").2.2 (by decide)
      [k1] (setValidated stHot) (by decide), ?_⟩
  exact (C8_amended_step_order cfgNone .timeout 100 initState "x").1 rfl (by decide)

/-- C5 counterexample: after a fetch stored an empty key list at time
100, the cache does hold a KeySet of age 0 — within the freshness window
— yet the next access performs another network fetch (the Python
truthiness test treats the held empty list like no cache at all) and
returns the newly fetched keys rather than the held KeySet. -/
theorem C5_counterexample :
    stAfterEmpty.keysCache = some [] ∧
    stAfterEmpty.fetches = 1 ∧
    (100 : Int) - stAfterEmpty.keysCacheTime < CACHE_DURATION ∧
    (getPublicKeys cfg1 (.ok respKeys) 100 stAfterEmpty).snd.fetches = 2 ∧
    (getPublicKeys cfg1 (.ok respKeys) 100 stAfterEmpty).fst = .ok [k1] := by
  decide

/-- C5 amended: a held NON-EMPTY KeySet within the window is returned
with no fetch; otherwise (no KeySet, held empty KeySet, or stale) a
successful access performs exactly one fetch, replaces the KeySet and its
timestamp wholesale, and returns the fetched keys. -/
theorem C5_amended_cache (cfg : Config) (env : HttpResult) (r : HttpResponse)
    (now : Int) (st : GState) (ks fetched : List SigningKey)
    (hm : missingVars cfg = []) :
    (st.keysCache = some ks → ks ≠ [] → now - st.keysCacheTime < CACHE_DURATION →
      getPublicKeys cfg env now st = (.ok ks, setValidated st)) ∧
    (cacheFresh st now = false → ¬(400 ≤ r.status ∧ r.status < 600) →
      r.json = some (.withKeys fetched) →
      getPublicKeys cfg (.ok r) now st
        = (.ok fetched,
           { configValidated := true, keysCache := some fetched,
             keysCacheTime := now, fetches := st.fetches + 1 })) := by
  constructor
  · intro hc hne hfr
    exact getPublicKeys_hit cfg env now st ks hm hc hne hfr
  · intro hstale hstatus hjson
    rw [getPublicKeys_stale cfg (.ok r) now st hm hstale]
    unfold fetchKeys
    simp only
    rw [if_neg hstatus, hjson]
    rfl

/-- Witness for the amended C5: a hit performs no fetch; a miss from the
initial state performs one and stores keys and timestamp. -/
theorem C5_amended_cache_witness :
    getPublicKeys cfg1 .timeout 100 stHot = (.ok [k1], setValidated stHot) ∧
    getPublicKeys cfg1 (.ok respKeys) 100 initState
      = (.ok [k1],
         { configValidated := true, keysCache := some [k1],
           keysCacheTime := 100, fetches := 1 }) := by
  refine ⟨(C5_amended_cache cfg1 .timeout respKeys 100 stHot [k1] [k1]
      (by decide)).1 rfl (by decide) (by decide), ?_⟩
  exact (C5_amended_cache cfg1 (.ok respKeys) respKeys 100 initState [] [k1]
      (by decide)).2 (by decide) (by decide) rfl

/-- C6 counterexample: a response whose status is 304 — not a success
status — but whose body carries a key list makes the fetch SUCCEED
(the code only raises for statuses in [400, 600)), contradicting the
claim that any non-success status fails the fetch. -/
theorem C6_counterexample :
    ¬(200 ≤ resp304.status ∧ resp304.status < 300) ∧
    (getPublicKeys cfg1 (.ok resp304) 100 initState).fst = .ok [k1] := by
  decide

/-- C6 amended: on a key-fetch attempt, a CLIENT-ERROR OR SERVER-ERROR
status (400–599) fails with the HTTP-variant fetch error carrying status
and body; otherwise a body that is not JSON or lacks the `keys` field
fails with the parse-variant fetch error; otherwise the parsed keys are
returned as the new, freshly timestamped KeySet. -/
theorem C6_amended_fetch (cfg : Config) (r : HttpResponse) (now : Int)
    (st : GState) (ks : List SigningKey)
    (hm : missingVars cfg = []) (hstale : cacheFresh st now = false) :
    (400 ≤ r.status ∧ r.status < 600 →
      (getPublicKeys cfg (.ok r) now st).fst = .error (.keyFetchHttp r.status r.text)) ∧
    (¬(400 ≤ r.status ∧ r.status < 600) →
      (r.json = none ∨ r.json = some .withoutKeys) →
      (getPublicKeys cfg (.ok r) now st).fst = .error .keyFetchParse) ∧
    (¬(400 ≤ r.status ∧ r.status < 600) → r.json = some (.withKeys ks) →
      getPublicKeys cfg (.ok r) now st
        = (.ok ks, { configValidated := true, keysCache := some ks,
                     keysCacheTime := now, fetches := st.fetches + 1 })) := by
  rw [getPublicKeys_stale cfg (.ok r) now st hm hstale]
  refine ⟨?_, ?_, ?_⟩
  · intro hbad
    unfold fetchKeys
    simp only
    rw [if_pos hbad]
  · intro hok hjson
    unfold fetchKeys
    simp only
    rw [if_neg hok]
    rcases hjson with hj | hj <;> rw [hj]
  · intro hok hjson
    unfold fetchKeys
    simp only
    rw [if_neg hok, hjson]
    rfl

/-- Witness for the amended C6 at a 500 response, a keyless body, and a
successful body. -/
theorem C6_amended_fetch_witness :
    (getPublicKeys cfg1
        (.ok { status := 500, text := "oops", json := none }) 100 initState).fst
      = .error (.keyFetchHttp 500 "oops") ∧
    (getPublicKeys cfg1
        (.ok { status := 200, text := "", json := some .withoutKeys }) 100 initState).fst
      = .error .keyFetchParse ∧
    getPublicKeys cfg1 (.ok respKeys) 100 initState
      = (.ok [k1], { configValidated := true, keysCache := some [k1],
                     keysCacheTime := 100, fetches := 1 }) := by
  refine ⟨(C6_amended_fetch cfg1 { status := 500, text := "oops", json := none }
      100 initState [] (by decide) (by decide)).1 (by decide), ?_, ?_⟩
  · exact (C6_amended_fetch cfg1 { status := 200, text := "", json := some .withoutKeys }
      100 initState [] (by decide) (by decide)).2.1 (by decide) (Or.inr rfl)
  · exact (C6_amended_fetch cfg1 respKeys 100 initState [k1]
      (by decide) (by decide)).2.2 (by decide) rfl

/-- C10: a failing key-fetch attempt leaves both the cached KeySet and
its fetch timestamp exactly as they were; a successful access that did
perform a fetch updates both together, to the fetched keys and the
access time. -/
theorem C10_fetch_atomic (cfg : Config) (env : HttpResult) (now : Int) (st : GState)
    (e : Err) (ks : List SigningKey) (st2 : GState) :
    (getPublicKeys cfg env now st = (.error e, st2) →
      st2.keysCache = st.keysCache ∧ st2.keysCacheTime = st.keysCacheTime) ∧
    (getPublicKeys cfg env now st = (.ok ks, st2) → st2.fetches = st.fetches + 1 →
      st2.keysCache = some ks ∧ st2.keysCacheTime = now) := by
  constructor
  · intro h
    unfold getPublicKeys at h
    split at h
    case _ e0 st1 heq =>
      obtain ⟨he, hst⟩ := Prod.mk.inj h
      subst hst
      unfold validateConfig at heq
      split at heq
      · cases heq
      · split at heq
        · cases heq
        · cases heq
          exact ⟨rfl, rfl⟩
    case _ u st1 heq =>
      have hpres : st1.keysCache = st.keysCache ∧ st1.keysCacheTime = st.keysCacheTime ∧
          st1.fetches = st.fetches := by
        have := validateConfig_preserves cfg st
        rw [heq] at this
        exact this
      split at h
      · split at h
        · cases h
        · obtain ⟨h1, h2, h3⟩ := fetchKeys_error env now st1 e st2 h
          exact ⟨h1.trans hpres.1, h2.trans hpres.2.1⟩
      · obtain ⟨h1, h2, h3⟩ := fetchKeys_error env now st1 e st2 h
        exact ⟨h1.trans hpres.1, h2.trans hpres.2.1⟩
  · intro h hfetched
    unfold getPublicKeys at h
    split at h
    case _ e0 st1 heq => cases h
    case _ u st1 heq =>
      have hpres : st1.keysCache = st.keysCache ∧ st1.keysCacheTime = st.keysCacheTime ∧
          st1.fetches = st.fetches := by
        have := validateConfig_preserves cfg st
        rw [heq] at this
        exact this
      split at h
      · split at h
        · obtain ⟨hv, hst⟩ := Prod.mk.inj h
          subst hst
          rw [hpres.2.2] at hfetched
          omega
        · have := fetchKeys_ok env now st1 ks st2 h
          rw [this]
          exact ⟨rfl, rfl⟩
      · have := fetchKeys_ok env now st1 ks st2 h
        rw [this]
        exact ⟨rfl, rfl⟩

/-- Witness for C10: a timed-out fetch changes neither cache field; a
successful fetch from the initial state sets both together. -/
theorem C10_fetch_atomic_witness :
    ((getPublicKeys cfg1 .timeout 5000000 stHot).snd.keysCache = stHot.keysCache ∧
      (getPublicKeys cfg1 .timeout 5000000 stHot).snd.keysCacheTime
        = stHot.keysCacheTime) ∧
    ((getPublicKeys cfg1 (.ok respKeys) 100 initState).snd.keysCache = some [k1] ∧
      (getPublicKeys cfg1 (.ok respKeys) 100 initState).snd.keysCacheTime = 100) := by
  constructor
  · exact (C10_fetch_atomic cfg1 .timeout 5000000 stHot .keyFetchTimeout []
      (getPublicKeys cfg1 .timeout 5000000 stHot).snd).1 (by decide)
  · exact (C10_fetch_atomic cfg1 (.ok respKeys) 100 initState .keyFetchTimeout [k1]
      (getPublicKeys cfg1 (.ok respKeys) 100 initState).snd).2 (by decide) (by decide)

/-- C1 counterexample: a token meeting every condition the claim states —
signature valid under the cached key its header names, audience and
issuer matching the configuration, expiry in the future — but whose
issued-at claim lies in the future.  `validate` rejects it with a claims
error instead of succeeding. -/
theorem C1_counterexample :
    k1 ∈ [k1] ∧ k1.kid = hdr1.kid ∧ stHot.keysCache = some [k1] ∧
    (100 : Int) - stHot.keysCacheTime < CACHE_DURATION ∧
    verifySig hdr1.alg k1.material hdr1 payIatFuture sigIatFuture = true ∧
    payIatFuture.aud = audOf cfg1 ∧ payIatFuture.iss = issOf cfg1 ∧
    payIatFuture.exp = some 4000 ∧ (100 : Int) < 4000 ∧
    (validateAccessJwt cfg1 .timeout 100
        (.wellFormed hdr1 payIatFuture sigIatFuture) stHot).fst
      = .error (.claimsError .iat) := by
  decide

/-- C1 amended: with the additional hypotheses that the header algorithm
is the pinned RS256 and that the issued-at claim, when present, is not in
the future, a token signed by a cached key matching its header identifier
with matching audience and issuer and unexpired expiry is accepted, and
the returned claims are exactly the token's payload (so subject, email,
issued-at and expiry all match it). -/
theorem C1_amended_valid_token (cfg : Config) (env : HttpResult) (now : Int)
    (st : GState) (h : Header) (p : Payload) (s : Sig)
    (keys : List SigningKey) (k : SigningKey) (e : Int)
    (hm : missingVars cfg = [])
    (hc : st.keysCache = some keys) (hne : keys ≠ [])
    (hfr : now - st.keysCacheTime < CACHE_DURATION)
    (hnd : (keys.map SigningKey.kid).Nodup)
    (hkmem : k ∈ keys) (hkid : k.kid = h.kid)
    (halg : h.alg = "RS256")
    (hsig : verifySig h.alg k.material h p s = true)
    (haud : p.aud = audOf cfg) (hiss : p.iss = issOf cfg)
    (hexp : p.exp = some e) (hefut : now < e)
    (hiat : ∀ t, p.iat = some t → t ≤ now) :
    (validateAccessJwt cfg env now (.wellFormed h p s) st).fst = .ok p := by
  rw [validate_steps cfg env now _ st hm,
    getPublicKeys_hit cfg env now (setValidated st) keys hm hc hne hfr]
  simp only [getUnverifiedHeader]
  rw [keyLoop_eq_find, matchedKey_of_mem keys k h hnd hkmem hkid]
  simp only [jwtDecode]
  rw [if_pos (by simp [halg] : Header.alg h ∈ (["RS256"] : List String)), if_pos hsig]
  rw [if_neg (by
    cases hpi : p.iat with
    | none => simp
    | some t => simpa using not_lt.mpr (hiat t hpi))]
  rw [if_neg (by rw [hexp]; simpa using hefut)]
  rw [if_neg (by simp [hiss]), if_neg (by simp [haud])]

/-- Witness for the amended C1 at the concrete valid token `tok1`. -/
theorem C1_amended_valid_token_witness :
    (validateAccessJwt cfg1 .timeout 100 tok1 stHot).fst = .ok pay1 :=
  C1_amended_valid_token cfg1 .timeout 100 stHot hdr1 pay1 sig1 [k1] k1 4000
    (by decide) rfl (by decide) (by decide) (by decide) (by decide) rfl rfl
    (by decide) (by decide) (by decide) rfl (by decide)
    (by
      intro t ht
      have h50 : (some (50 : Int) : Option Int) = some t := ht
      have := Option.some.inj h50
      omega)

/-- C2: a successful validation implies the token is well-formed and its
signature verifies (as RS256) against the material of the first cached
key matching its header identifier; and when validation reaches signature
verification (key matched, algorithm RS256) and the signature does not
verify, `validate` fails with the signature error. -/
theorem C2_signature_soundness :
    (∀ (cfg : Config) (env : HttpResult) (now : Int) (tok : Token) (st : GState)
        (q : Payload) (st2 : GState),
      validateAccessJwt cfg env now tok st = (.ok q, st2) →
      ∃ h p s keys k, tok = .wellFormed h p s ∧
        getPublicKeys cfg env now ((validateConfig cfg st).snd) = (.ok keys, st2) ∧
        matchedKey keys h = some k ∧
        verifySig "RS256" k.material h p s = true) ∧
    (∀ (cfg : Config) (env : HttpResult) (now : Int) (st : GState) (h : Header)
        (p : Payload) (s : Sig) (keys : List SigningKey) (k : SigningKey),
      missingVars cfg = [] → st.keysCache = some keys → keys ≠ [] →
      now - st.keysCacheTime < CACHE_DURATION →
      matchedKey keys h = some k → h.alg = "RS256" →
      verifySig h.alg k.material h p s = false →
      (validateAccessJwt cfg env now (.wellFormed h p s) st).fst
        = .error .signatureError) := by
  constructor
  · intro cfg env now tok st q st2 hok
    obtain ⟨h, p, s, keys, k, htok, hget, hk, halg, _, hsig, _⟩ :=
      validate_ok_inv cfg env now tok st q st2 hok
    rw [halg] at hsig
    exact ⟨h, p, s, keys, k, htok, hget, hk, hsig⟩
  · intro cfg env now st h p s keys k hm hc hne hfr hk halg hsig
    rw [validate_steps cfg env now _ st hm,
      getPublicKeys_hit cfg env now (setValidated st) keys hm hc hne hfr]
    simp only [getUnverifiedHeader]
    rw [keyLoop_eq_find, hk]
    simp only [jwtDecode]
    rw [if_pos (by simp [halg] : Header.alg h ∈ (["RS256"] : List String)),
      if_neg (by simp [hsig])]

/-- Witness for C2: the successful run of `tok1` yields a verified
signature, and the same token re-signed with different key material is
rejected with the signature error. -/
theorem C2_signature_soundness_witness :
    (∃ h p s keys k, tok1 = Token.wellFormed h p s ∧
      getPublicKeys cfg1 .timeout 100 ((validateConfig cfg1 stHot).snd)
        = (.ok keys, setValidated stHot) ∧
      matchedKey keys h = some k ∧
      verifySig "RS256" k.material h p s = true) ∧
    (validateAccessJwt cfg1 .timeout 100 (.wellFormed hdr1 pay1 sigWrong) stHot).fst
      = .error .signatureError :=
  ⟨C2_signature_soundness.1 cfg1 .timeout 100 tok1 stHot pay1 (setValidated stHot)
      (by decide),
   C2_signature_soundness.2 cfg1 .timeout 100 stHot hdr1 pay1 sigWrong [k1] k1
      (by decide) rfl (by decide) (by decide) (by decide) rfl (by decide)⟩

/-- C3: when no key of the obtained KeySet (empty set included) has the
token's header identifier, `validate` fails with the unknown-key error;
and the key loop is a linear scan returning `jwt.decode` under the FIRST
matching key. -/
theorem C3_unknown_kid :
    (∀ (cfg : Config) (env : HttpResult) (now : Int) (st : GState) (h : Header)
        (p : Payload) (s : Sig) (keys : List SigningKey) (st2 : GState),
      missingVars cfg = [] →
      getPublicKeys cfg env now (setValidated st) = (.ok keys, st2) →
      (∀ k ∈ keys, SigningKey.kid k ≠ h.kid) →
      validateAccessJwt cfg env now (.wellFormed h p s) st
        = (.error .unknownKey, st2)) ∧
    (∀ (tok : Token) (hdr : Header) (aud iss : String) (now : Int)
        (keys : List SigningKey),
      keyLoop tok hdr aud iss now keys =
        match matchedKey keys hdr with
        | none => Except.error .unknownKey
        | some k => jwtDecode tok k.material aud iss now) := by
  constructor
  · intro cfg env now st h p s keys st2 hm hget hnone
    rw [validate_steps cfg env now _ st hm, hget]
    simp only [getUnverifiedHeader]
    rw [keyLoop_eq_find]
    have hfind : matchedKey keys h = none := by
      apply List.find?_eq_none.mpr
      intro k hk
      simpa using hnone k hk
    rw [hfind]
  · exact keyLoop_eq_find

/-- Witness for C3: an empty fetched KeySet yields the unknown-key error,
and so does a cached KeySet that lacks the token's identifier. -/
theorem C3_unknown_kid_witness :
    validateAccessJwt cfg1 (.ok respEmptyKeys) 100
        (.wellFormed hdr1 pay1 sig1) initState
      = (.error .unknownKey,
         { configValidated := true, keysCache := some [],
           keysCacheTime := 100, fetches := 1 }) ∧
    validateAccessJwt cfg1 .timeout 100
        (.wellFormed hdrNoKid pay1 sigNoKid) stHot
      = (.error .unknownKey, setValidated stHot) := by
  constructor
  · exact (C3_unknown_kid.1 cfg1 (.ok respEmptyKeys) 100 initState hdr1 pay1 sig1 []
      { configValidated := true, keysCache := some [],
        keysCacheTime := 100, fetches := 1 }
      (by decide) (by decide) (by intro k hk; cases hk))
  · exact (C3_unknown_kid.1 cfg1 .timeout 100 stHot hdrNoKid pay1 sigNoKid [k1]
      (setValidated stHot) (by decide) (by decide)
      (by
        intro k hk
        have hk1 : k = k1 := by simpa using hk
        rw [hk1]
        decide))

/-- C7: for a token that reaches the claims-verification step (key
matched, algorithm RS256, signature valid), a mismatched audience, a
mismatched issuer, an expiry not in the future, or an issued-at in the
future makes `validate` fail with a claims error naming a claim that
indeed fails (PyJWT leeway is 0 here, so the clock-skew tolerance is
zero). -/
theorem C7_claims_errors (cfg : Config) (env : HttpResult) (now : Int)
    (st : GState) (h : Header) (p : Payload) (s : Sig)
    (keys : List SigningKey) (k : SigningKey)
    (hm : missingVars cfg = []) (hc : st.keysCache = some keys) (hne : keys ≠ [])
    (hfr : now - st.keysCacheTime < CACHE_DURATION)
    (hk : matchedKey keys h = some k) (halg : h.alg = "RS256")
    (hsig : verifySig h.alg k.material h p s = true)
    (hbad : p.aud ≠ audOf cfg ∨ p.iss ≠ issOf cfg ∨
      (∃ t, p.exp = some t ∧ t ≤ now) ∨ (∃ t, p.iat = some t ∧ now < t)) :
    ∃ kind, (validateAccessJwt cfg env now (.wellFormed h p s) st).fst
        = .error (.claimsError kind) ∧
      claimFails kind p (audOf cfg) (issOf cfg) now := by
  rw [validate_steps cfg env now _ st hm,
    getPublicKeys_hit cfg env now (setValidated st) keys hm hc hne hfr]
  simp only [getUnverifiedHeader]
  rw [keyLoop_eq_find, hk]
  exact jwtDecode_claims h p s k.material (audOf cfg) (issOf cfg) now halg hsig hbad

/-- Witness for C7 at a concrete token whose audience differs from the
configured tag. -/
theorem C7_claims_errors_witness :
    ∃ kind, (validateAccessJwt cfg1 .timeout 100
          (.wellFormed hdr1 payBadAud sigBadAud) stHot).fst
        = .error (.claimsError kind) ∧
      claimFails kind payBadAud (audOf cfg1) (issOf cfg1) 100 :=
  C7_claims_errors cfg1 .timeout 100 stHot hdr1 payBadAud sigBadAud [k1] k1
    (by decide) rfl (by decide) (by decide) (by decide) rfl (by decide)
    (Or.inl (by decide))

/-- C9: a successful validation implies the token declared — and was
signed with — the pinned RS256 algorithm; hence no token declaring any
other algorithm ever yields a TokenClaims. -/
theorem C9_rs256_pinned (cfg : Config) (env : HttpResult) (now : Int)
    (tok : Token) (st : GState) (q : Payload) (st2 : GState)
    (hok : validateAccessJwt cfg env now tok st = (.ok q, st2)) :
    ∃ h p s, tok = .wellFormed h p s ∧
      Header.alg h = "RS256" ∧ Sig.alg s = "RS256" := by
  obtain ⟨h, p, s, keys, k, htok, _, _, halg, hsalg, _, _⟩ :=
    validate_ok_inv cfg env now tok st q st2 hok
  exact ⟨h, p, s, htok, halg, hsalg⟩

/-- Witness for C9: the successful run of `tok1` is RS256; and the
concrete RS512 token whose signature is valid under its declared
algorithm and matched key is rejected, with the algorithm error. -/
theorem C9_rs256_pinned_witness :
    (∃ h p s, tok1 = Token.wellFormed h p s ∧
      Header.alg h = "RS256" ∧ Sig.alg s = "RS256") ∧
    verifySig hdr512.alg k1.material hdr512 pay1 sig512 = true ∧
    (validateAccessJwt cfg1 .timeout 100 tok512 stHot).fst = .error .badAlgorithm :=
  ⟨C9_rs256_pinned cfg1 .timeout 100 tok1 stHot pay1 (setValidated stHot) (by decide),
   by decide, by decide⟩

end CfAccess
